import Mathlib

/-!
Shallow embedding of the FLIP-fluids simulation engine
(`src/engine/fluidsimulation.cpp`) and proofs about its specification.

Machine floating-point arithmetic is idealized as exact rational
arithmetic (`ℚ`); decimal literals of the C++ source such as `1e-6` are
taken at their decimal value.  Grid fields, signed-distance fields and
other objects whose implementations live outside the engine file are
abstracted as function parameters; where the behaviour of such a missing
piece decides a claim it is modelled from the specification and marked so
in its doc comment.
-/

namespace FlipFluids

/-- A 3-component vector, modelling `vmath::vec3` with exact rationals. -/
structure Vec3 where
  x : ℚ
  y : ℚ
  z : ℚ
deriving DecidableEq, Repr

namespace Vec3

/-- Componentwise addition, modelling `vmath::vec3::operator+`. -/
def add (a b : Vec3) : Vec3 := ⟨a.x + b.x, a.y + b.y, a.z + b.z⟩

/-- Componentwise subtraction, modelling `vmath::vec3::operator-`. -/
def sub (a b : Vec3) : Vec3 := ⟨a.x - b.x, a.y - b.y, a.z - b.z⟩

/-- Scalar multiplication, modelling `scalar * vmath::vec3`. -/
def smul (r : ℚ) (a : Vec3) : Vec3 := ⟨r * a.x, r * a.y, r * a.z⟩

/-- Cross product, modelling `vmath::cross`. -/
def cross (a b : Vec3) : Vec3 :=
  ⟨a.y * b.z - a.z * b.y, a.z * b.x - a.x * b.z, a.x * b.y - a.y * b.x⟩

theorem ext_iff (a b : Vec3) : a = b ↔ a.x = b.x ∧ a.y = b.y ∧ a.z = b.z := by
  constructor
  · intro h; subst h; exact ⟨rfl, rfl, rfl⟩
  · rcases a with ⟨ax, ay, az⟩
    rcases b with ⟨bx, by', bz⟩
    rintro ⟨h1, h2, h3⟩
    simp_all

end Vec3

/-!
## PIC/FLIP grid-to-particle velocity update (claim C1)

Embedding of `FluidSimulation::_updatePICFLIPMarkerParticleVelocitiesThread`.
The two MAC velocity fields (`_MACVelocity` and `_savedVelocityField`) are
abstracted as the functions `vGrid` and `vSaved` giving their trilinear
evaluation (`evaluateVelocityAtPositionLinear`) at a position.
-/

/-- Per-particle body of the loop in
`_updatePICFLIPMarkerParticleVelocitiesThread`:
`vPIC = vGrid(pos)`, `vFLIP = vel + vPIC - vSaved(pos)`,
`v = ratio * vPIC + (1 - ratio) * vFLIP`. -/
def updatePICFLIPVelocity (ratioPICFLIP : ℚ) (vGrid vSaved : Vec3 → Vec3)
    (pos vel : Vec3) : Vec3 :=
  let vPIC := vGrid pos
  let vFLIP := (vel.add vPIC).sub (vSaved pos)
  (Vec3.smul ratioPICFLIP vPIC).add (Vec3.smul (1 - ratioPICFLIP) vFLIP)

/-- The loop of `_updatePICFLIPMarkerParticleVelocitiesThread` over the
particle slots `[startidx, endidx)`, acting on the position and velocity
columns pairwise. -/
def updatePICFLIPVelocitiesThread (ratioPICFLIP : ℚ) (vGrid vSaved : Vec3 → Vec3)
    (positions velocities : List Vec3) : List Vec3 :=
  List.zipWith (updatePICFLIPVelocity ratioPICFLIP vGrid vSaved) positions velocities

/-!
## Validating setters (claim C8)

Embedding of `FluidSimulation::setPICFLIPRatio` and
`FluidSimulation::setDensity`.  A setter is modelled as a function from the
pre-state to the post-state paired with the raised error, if any: in the
C++ source the `throw` statement executes before any member assignment, so
on a raised error the post-state is the unchanged pre-state.
-/

/-- Error kinds raised by the engine's validation code. -/
inductive SimError where
  | domainError : SimError
  | notInitialized : SimError
deriving DecidableEq, Repr

/-- The configuration fields relevant to the validating setters under
study (members of `FluidSimulation`). -/
structure FluidSettings where
  ratioPICFLIP : ℚ
  density : ℚ
  markerParticleJitterFactor : ℚ
deriving DecidableEq, Repr

/-- `FluidSimulation::setPICFLIPRatio`: raises `std::domain_error` when
`r < 0.0 || r > 1.0`, otherwise stores `r`. -/
def setPICFLIPRatio (s : FluidSettings) (r : ℚ) : FluidSettings × Option SimError :=
  if r < 0 ∨ r > 1 then (s, some SimError.domainError)
  else ({ s with ratioPICFLIP := r }, none)

/-- `FluidSimulation::getPICFLIPRatio`. -/
def getPICFLIPRatio (s : FluidSettings) : ℚ := s.ratioPICFLIP

/-- `FluidSimulation::setDensity`: raises `std::domain_error` when
`p <= 0.0`, otherwise stores `p`. -/
def setDensity (s : FluidSettings) (p : ℚ) : FluidSettings × Option SimError :=
  if p ≤ 0 then (s, some SimError.domainError)
  else ({ s with density := p }, none)

/-- `FluidSimulation::getDensity`. -/
def getDensity (s : FluidSettings) : ℚ := s.density

/-!
## Adaptive time stepping (claims C2, C4, C10)

Embedding of `FluidSimulation::_calculateNextTimeStep` and the substep
loop of `FluidSimulation::update`.  The maximum marker-particle/obstacle
speed entering each substep's CFL computation depends on simulation state
not tracked here, so the per-substep speed is abstracted as a sequence
`maxu : ℕ → ℚ`; likewise the surface-tension restriction value
`sqrt(dx^3) * sqrt(1/(sigma+eps))`, a square root the rational model cannot
compute, is abstracted as a parameter.
-/

/-- `FluidSimulation::_calculateNextTimeStep`: the CFL-limited candidate
`cfl * dx / (maxu + 1e-6)`, optionally capped by the surface-tension
restriction, is rounded so that the frame splits into
`max(ceil(dt / timeStep), 1)` equal substeps of size `dt / numSubsteps`.
`stActive` stands for
`_isSurfaceTensionEnabled && (_isFluidInSimulation() || _isFluidGeneratingThisFrame())`
and `stRestriction` for the computed value `sqrt(dx*dx*dx) * sqrt(1/(sigma+eps))`. -/
def calculateNextTimeStep (cfl dx maxu : ℚ) (stActive : Bool)
    (stConditionNumber stRestriction : ℚ) (dt : ℚ) : ℚ :=
  let eps : ℚ := 1/1000000
  let timeStep := cfl * dx / (maxu + eps)
  let timeStep := if stActive then min timeStep (stConditionNumber * stRestriction)
                  else timeStep
  let estimatedNumFrameSubsteps : ℤ := max ⌈dt / timeStep⌉ 1
  dt / (estimatedNumFrameSubsteps : ℚ)

/-- One substep size as chosen inside the loop of `FluidSimulation::update`:
the candidate from `_calculateNextTimeStep` capped by the remaining frame
time, then pulled back onto the `dt / minSteps` schedule when it would
overshoot it, and forced to the whole remaining time on the last allowed
substep (`n = maxSteps - 1`). -/
def substepSize (minSteps maxSteps : ℕ) (dt remaining candidate : ℚ) (n : ℕ) : ℚ :=
  let substepTime := dt / (minSteps : ℚ)
  let step1 := min candidate remaining
  let timeCompleted := dt - remaining
  let stepLimit := ((n : ℚ) + 1) * substepTime
  let step2 := if timeCompleted + step1 > stepLimit then min substepTime remaining
               else step1
  if (n : ℤ) = (maxSteps : ℤ) - 1 then remaining else step2

/-- The do-while substep loop of `FluidSimulation::update`, returning the
list of substep sizes.  `fuel` is a bound on the remaining iterations; the
loop is re-entered only while more than the tolerance `1e-9` of frame time
remains.  With `maxSteps ≥ 1` the fuel `maxSteps` is never exhausted,
because at `n = maxSteps - 1` the substep consumes all remaining time. -/
def frameSubstepsAux (minSteps maxSteps : ℕ) (dt : ℚ) (cand : ℕ → ℚ) :
    ℕ → ℕ → ℚ → List ℚ
  | 0, _, _ => []
  | fuel+1, n, remaining =>
    let step := substepSize minSteps maxSteps dt remaining (cand n) n
    let remaining' := remaining - step
    if remaining' > 1/1000000000 then
      step :: frameSubstepsAux minSteps maxSteps dt cand fuel (n+1) remaining'
    else [step]

/-- The substep sizes executed by one call of `FluidSimulation::update`
with (clamped) frame delta time `dt`. -/
def frameSubsteps (minSteps maxSteps : ℕ) (dt : ℚ) (cand : ℕ → ℚ) : List ℚ :=
  frameSubstepsAux minSteps maxSteps dt cand maxSteps 0 dt

/-- The substep-size formula as the specification states it:
`min(CFL * dx / (v_max + eps), remaining)`. -/
def specSubstepFormula (cfl dx maxu remaining : ℚ) : ℚ :=
  min (cfl * dx / (maxu + 1/1000000)) remaining

/-!
### The `update(dt)` entry point

`FluidSimulation::update` validates, clamps `dt` up to `1e-6`, computes the
skipped-frame flag, then runs the substep loop, calling `_stepFluid` for
each substep; `_stepFluid` performs none of the pipeline stages when the
frame is skipped.  The pipeline body of `_stepFluid` is abstracted as a
state transformer `stepFluid : ℚ → α → α` on an abstract simulation state.
-/

/-- Per-frame simulation state visible to `FluidSimulation::update`;
`sim : α` stands for all state touched only by the `_stepFluid` pipeline
(particle store, grids, output buffers). -/
structure SimState (α : Type) where
  isSimulationInitialized : Bool
  currentFrame : ℤ
  isCurrentFrameFinished : Bool
  outputDataIsInitialized : Bool
  sim : α

/-- `FluidSimulation::update(dt)`: raises `NotInitialized` (a
`std::runtime_error`) before anything else when the simulation was never
initialized, then raises `std::domain_error` when `dt < 0`; both raises
happen before any member assignment, so the caller's state is unchanged.
Otherwise the frame runs to completion: `dt` is clamped up to `1e-6`, the
skipped-frame flag is computed, every substep runs `_stepFluid`, and
afterwards the frame counter has advanced and the frame is marked
finished. -/
def updateSim {α : Type} (minSteps maxSteps : ℕ) (cand : ℕ → ℚ)
    (isDebuggingEnabled : Bool) (stepFluid : ℚ → α → α)
    (s : SimState α) (dt : ℚ) : Except SimError (SimState α) :=
  if ¬s.isSimulationInitialized then Except.error SimError.notInitialized
  else if dt < 0 then Except.error SimError.domainError
  else
    let epsdt : ℚ := 1/1000000
    let isZeroLengthDeltaTime : Bool := decide (dt < epsdt)
    let dtClamped := max dt epsdt
    let isSkippedFrame : Bool :=
      isZeroLengthDeltaTime && s.outputDataIsInitialized && !isDebuggingEnabled
    let steps := frameSubsteps minSteps maxSteps dtClamped cand
    let sim' := steps.foldl
      (fun a st => if isSkippedFrame then a else stepFluid st a) s.sim
    Except.ok { s with
      sim := sim'
      currentFrame := s.currentFrame + 1
      isCurrentFrameFinished := true
      outputDataIsInitialized := true }

/-!
## Pressure-solver status reduction (claim C3)

Embedding of the solver-status bookkeeping of
`FluidSimulation::_pressureSolve`.  The numerical solve itself
(`PressureSolver::solve`, outside this file) is abstracted by its reported
result: a success flag, an iteration count and an error value.
-/

/-- Result reported by one `PressureSolver::solve` call. -/
structure SolveResult where
  success : Bool
  iterations : ℤ
  err : ℚ
deriving DecidableEq, Repr

/-- Frame-level solver status (`_pressureSolverSuccess`,
`_pressureSolverIterations`, `_pressureSolverError`). -/
structure SolverStatus where
  success : Bool
  iterations : ℤ
  err : ℚ
deriving DecidableEq, Repr

/-- The status update performed by one `_pressureSolve` call at substep
`substepNumber`, as written: the function body first RESETS the three
status members to `(true, 0, 0)`, then on substep 0 records the substep's
result, and on later substeps compares the fresh result against the
just-reset members — not against the status accumulated in `_prev` over
the earlier substeps of the frame. -/
def pressureSolveStatusStep (substepNumber : ℕ) (_prev : SolverStatus)
    (r : SolveResult) : SolverStatus :=
  let reset : SolverStatus := ⟨true, 0, 0⟩
  if substepNumber = 0 then ⟨r.success, r.iterations, r.err⟩
  else if reset.success && (!r.success || decide (r.iterations > reset.iterations))
    then ⟨r.success, r.iterations, r.err⟩
    else reset

/-- The frame-level status after folding `_pressureSolve`'s status update
over the substeps' solver results, starting from the initialization done
in `FluidSimulation::update`. -/
def frameSolverStatus (results : List SolveResult) : SolverStatus :=
  (results.foldl (fun (p : ℕ × SolverStatus) r =>
      (p.1 + 1, pressureSolveStatusStep p.1 p.2 r)) (0, ⟨true, 0, 0⟩)).2

/-- Modelled from the spec (and from the comment inside `_pressureSolve`:
"Solver status should capture the first failure state / Otherwise, it
should capture the substep with max iterations"): on later substeps a
recorded failure is never overwritten, and while all substeps succeeded
the record is replaced exactly when the new substep failed or used
strictly more iterations. -/
def specSolverStatusStep (substepNumber : ℕ) (prev : SolverStatus)
    (r : SolveResult) : SolverStatus :=
  if substepNumber = 0 then ⟨r.success, r.iterations, r.err⟩
  else if prev.success && (!r.success || decide (r.iterations > prev.iterations))
    then ⟨r.success, r.iterations, r.err⟩
    else prev

/-- The frame-level status the specification describes. -/
def specFrameSolverStatus (results : List SolveResult) : SolverStatus :=
  (results.foldl (fun (p : ℕ × SolverStatus) r =>
      (p.1 + 1, specSolverStatusStep p.1 p.2 r)) (0, ⟨true, 0, 0⟩)).2

/-!
## Fluid-velocity extrapolation layer count (claim C7)
-/

/-- The IEEE-double value computed by `std::sqrt(3)`, as an exact
rational. -/
def sqrtThree : ℚ := 3900231685776981 / 2251799813685248

/-- The layer count computed by
`FluidSimulation::_extrapolateFluidVelocities`:
`(int)std::ceil(std::sqrt(3) * _CFLConditionNumber) + 3`. -/
def numExtrapolationLayers (cflConditionNumber : ℚ) : ℤ :=
  ⌈sqrtThree * cflConditionNumber⌉ + 3

/-- `FluidSimulation::_extrapolateFluidVelocities`: hands the MAC grid to
`MACVelocityField::extrapolateVelocityField` (outside this file,
abstracted as a parameter) together with the computed layer count. -/
def extrapolateFluidVelocities {grid : Type}
    (extrapolateVelocityField : grid → ℤ → grid)
    (cflConditionNumber : ℚ) (g : grid) : grid :=
  extrapolateVelocityField g (numExtrapolationLayers cflConditionNumber)

/-!
## Outflow culling (claim C5)

Embedding of the fluid branch of
`FluidSimulation::_updateOutflowMeshFluidSource`.  The source's
`MeshLevelSet` is abstracted as its trilinear evaluation `sourceSDF`.
-/

/-- A cell index triple `(i,j,k)`, modelling `GridIndex`. -/
structure GridIndex where
  i : ℤ
  j : ℤ
  k : ℤ
deriving DecidableEq, Repr

/-- `Grid3d::positionToGridIndex`: the cell containing a position. -/
def positionToGridIndex (dx : ℚ) (p : Vec3) : GridIndex :=
  ⟨⌊p.x / dx⌋, ⌊p.y / dx⌋, ⌊p.z / dx⌋⟩

/-- `Grid3d::isGridIndexInRange`. -/
def isGridIndexInRange (g : GridIndex) (isize jsize ksize : ℕ) : Bool :=
  decide (0 ≤ g.i ∧ g.i < (isize : ℤ) ∧ 0 ≤ g.j ∧ g.j < (jsize : ℤ) ∧
    0 ≤ g.k ∧ g.k < (ksize : ℤ))

/-- The `isOutflowCell` array built by `_updateOutflowMeshFluidSource`:
filled `false` and set `true` on the source cells, or — for an inversed
outflow — filled `true` and set `false` on the source cells. -/
def isOutflowCell (inversed : Bool) (sourceCells : List GridIndex)
    (g : GridIndex) : Bool :=
  if inversed then !(sourceCells.contains g) else sourceCells.contains g

/-- The per-particle removal test of the fluid branch of
`_updateOutflowMeshFluidSource`: a particle is removed when its cell is
outflow-marked and `sourceSDF(p - offset)` is `< 0` (normal outflow) or
`≥ 0` (inversed outflow). -/
def outflowRemovalTest (inversed : Bool) (sourceCells : List GridIndex)
    (sourceSDF : Vec3 → ℚ) (offset : Vec3) (dx : ℚ) (p : Vec3) : Bool :=
  let g := positionToGridIndex dx p
  if isOutflowCell inversed sourceCells g then
    (if inversed then decide (sourceSDF (p.sub offset) ≥ 0)
     else decide (sourceSDF (p.sub offset) < 0))
  else false

/-- The fluid-outflow pass: remove exactly the particles whose removal
mask is set.  `ParticleSystem::removeParticles` is outside this file;
modelled from the spec: removal deletes the masked slots and preserves
the relative order of kept slots. -/
def updateOutflowMeshFluidSource (inversed : Bool)
    (sourceCells : List GridIndex) (sourceSDF : Vec3 → ℚ) (offset : Vec3)
    (dx : ℚ) (positions : List Vec3) : List Vec3 :=
  positions.filter
    (fun p => !(outflowRemovalTest inversed sourceCells sourceSDF offset dx p))

/-!
## Inflow emission (claim C6)

Embedding of the particle-creation logic of
`FluidSimulation::_addNewFluidCells`.  Two shapes occur in the source:

* the overload taking a `VelocityFieldData*` (used for sources with a
  velocity field) checks the `ParticleMaskGrid` at the *unjittered*
  candidate position, may jitter the position, and on creation marks the
  sub-cell of the *jittered* position;
* the other overloads generate (possibly jittered) candidates in worker
  threads without consulting the mask, then in the join loop check and
  mark the mask at the same final position.

The randomized jitter displacement is abstracted as a function
`jit : Vec3 → Vec3`; `jitterEnabled` is
`_isJitterSurfaceMarkerParticlesEnabled`.  The mesh SDF and solid SDF are
abstracted by their trilinear evaluations.
-/

/-- Sub-cell index of a position: the `ParticleMaskGrid` (outside this
file) tracks occupancy on a half-cell-size grid; modelled from the spec:
"for each of the eight sub-cell candidate positions (`±dx/4`) not already
marked in a `ParticleMaskGrid`, create a particle ... and record the
sub-cell as occupied". -/
def subCellIndex (dx : ℚ) (p : Vec3) : GridIndex := positionToGridIndex (dx/2) p

/-- `ParticleMaskGrid::isSubCellSet`, on a mask represented as the list of
occupied sub-cells. -/
def isSubCellSet (mask : List GridIndex) (dx : ℚ) (p : Vec3) : Bool :=
  decide (subCellIndex dx p ∈ mask)

/-- `Grid3d::GridIndexToCellCenter`. -/
def gridIndexToCellCenter (dx : ℚ) (g : GridIndex) : Vec3 :=
  ⟨((g.i : ℚ) + 1/2) * dx, ((g.j : ℚ) + 1/2) * dx, ((g.k : ℚ) + 1/2) * dx⟩

/-- The eight sub-cell candidate offsets `(±dx/4, ±dx/4, ±dx/4)`
(`particleOffsets` with `q = 0.25 * _dx`). -/
def particleOffsets (dx : ℚ) : List Vec3 :=
  [⟨-(dx/4), -(dx/4), -(dx/4)⟩, ⟨dx/4, -(dx/4), -(dx/4)⟩,
   ⟨-(dx/4), dx/4, -(dx/4)⟩, ⟨dx/4, dx/4, -(dx/4)⟩,
   ⟨-(dx/4), -(dx/4), dx/4⟩, ⟨dx/4, -(dx/4), dx/4⟩,
   ⟨-(dx/4), dx/4, dx/4⟩, ⟨dx/4, dx/4, dx/4⟩]

/-- All candidate positions of a cell list, in processing order. -/
def candidatePositions (dx : ℚ) (cells : List GridIndex) : List Vec3 :=
  cells.flatMap (fun g => (particleOffsets dx).map
    (fun off => (gridIndexToCellCenter dx g).add off))

/-- The in-place reassignment `p = _jitterMarkerParticlePosition(p, jitter)`
performed when `_isJitterSurfaceMarkerParticlesEnabled || d < -_dx`. -/
def emissionJitterSel (dx : ℚ) (meshSDF : Vec3 → ℚ) (sdfoffset : Vec3)
    (jitterEnabled : Bool) (jit : Vec3 → Vec3) (p : Vec3) : Vec3 :=
  if jitterEnabled || decide (meshSDF (p.sub sdfoffset) < -dx) then jit p else p

/-- One candidate of the `VelocityFieldData` overload of
`_addNewFluidCells`: skip when the mask is set at the (unjittered)
candidate or the source SDF is positive there; otherwise jitter, and when
outside the solid create the particle at the jittered position and mark
its sub-cell.  The state is the pair (created particle positions, mask). -/
def addNewFluidCellsStep (dx : ℚ) (meshSDF : Vec3 → ℚ) (sdfoffset : Vec3)
    (solidSDF : Vec3 → ℚ) (jitterEnabled : Bool) (jit : Vec3 → Vec3)
    (st : List Vec3 × List GridIndex) (p : Vec3) : List Vec3 × List GridIndex :=
  if isSubCellSet st.2 dx p then st
  else if meshSDF (p.sub sdfoffset) > 0 then st
  else if solidSDF (emissionJitterSel dx meshSDF sdfoffset jitterEnabled jit p) > 0
    then (st.1 ++ [emissionJitterSel dx meshSDF sdfoffset jitterEnabled jit p],
      subCellIndex dx (emissionJitterSel dx meshSDF sdfoffset jitterEnabled jit p)
        :: st.2)
  else st

/-- The cell/offset loop of the `VelocityFieldData` overload of
`_addNewFluidCells` (solid test `_solidSDF.trilinearInterpolate(p) > 0`
keeps particles outside solids). -/
def addNewFluidCellsVField (dx : ℚ) (cells : List GridIndex)
    (meshSDF : Vec3 → ℚ) (sdfoffset : Vec3) (solidSDF : Vec3 → ℚ)
    (jitterEnabled : Bool) (jit : Vec3 → Vec3) (mask : List GridIndex) :
    List Vec3 × List GridIndex :=
  (candidatePositions dx cells).foldl
    (addNewFluidCellsStep dx meshSDF sdfoffset solidSDF jitterEnabled jit)
    ([], mask)

/-- The join loop of the threaded overloads of `_addNewFluidCells`: the
worker threads have already produced the (jittered, SDF- and
solid-filtered) candidate positions; the join loop checks and marks the
mask at the same position. -/
def addNewFluidCellsJoin (dx : ℚ) (candidates : List Vec3)
    (mask : List GridIndex) : List Vec3 × List GridIndex :=
  candidates.foldl (fun st p =>
    if isSubCellSet st.2 dx p then st
    else (st.1 ++ [p], subCellIndex dx p :: st.2)) ([], mask)

/-- A candidate position is "settled" for a mask when re-processing it
against that mask can create no particle: its sub-cell is occupied, or the
source SDF rejects it, or the solid SDF rejects its jittered image. -/
def emissionSettled (dx : ℚ) (meshSDF : Vec3 → ℚ) (sdfoffset : Vec3)
    (solidSDF : Vec3 → ℚ) (jitterEnabled : Bool) (jit : Vec3 → Vec3)
    (mask : List GridIndex) (p : Vec3) : Prop :=
  subCellIndex dx p ∈ mask ∨ meshSDF (p.sub sdfoffset) > 0 ∨
  (¬meshSDF (p.sub sdfoffset) > 0 ∧
    ¬solidSDF (emissionJitterSel dx meshSDF sdfoffset jitterEnabled jit p) > 0)

/-- Concrete source SDF for the C6 counterexample: only the first
candidate position `(1/2, 1/2, 1/2)` of cell `(0,0,0)` at `dx = 2` lies
inside the fluid (deep inside: `d = -3 < -dx`, which triggers the interior
jitter even with surface jittering disabled). -/
def exMeshSDF : Vec3 → ℚ :=
  fun v => if v.x = 1/2 ∧ v.y = 1/2 ∧ v.z = 1/2 then -3 else 1

/-- Concrete jitter displacement for the C6 counterexample: `+dx/2` along
x, which moves the candidate into the neighbouring sub-cell.  Such a
displacement is reachable: the jitter magnitude is
`0.25 * (_markerParticleJitterFactor - 1e-3) * _dx` and the jitter factor
setter accepts any value `≥ 0`, e.g. `3`. -/
def exJit : Vec3 → Vec3 := fun p => p.add ⟨1, 0, 0⟩

/-!
## Marker-particle containment (claim C9)

Embedding of `FluidSimulation::_addMarkerParticles`,
`_resolveMarkerParticleCollisions` and `_resolveCollision`.  The solid SDF
and its gradient are abstracted by their trilinear evaluations, the
near-solid grid by a predicate on cells, and the floating-point vector
norm (`vmath::length`, a square root the rational model cannot compute)
by a function parameter.
-/

/-- Axis-aligned bounding box (position plus extents).  The `AABB` utility
class is outside this file; modelled from the spec ("domain AABB",
"shrunk by the solid buffer"): `expand v` moves every face outward by
`v/2` (inward for negative `v`), `isPointInside` is containment in the
closed box, and `getNearestPointInsideAABB` clamps componentwise onto the
box. -/
structure AABB where
  px : ℚ
  py : ℚ
  pz : ℚ
  width : ℚ
  height : ℚ
  depth : ℚ
deriving DecidableEq, Repr

/-- `AABB::expand`. -/
def aabbExpand (b : AABB) (v : ℚ) : AABB :=
  ⟨b.px - v/2, b.py - v/2, b.pz - v/2, b.width + v, b.height + v, b.depth + v⟩

/-- `AABB::isPointInside`. -/
def aabbIsPointInside (b : AABB) (p : Vec3) : Bool :=
  decide (b.px ≤ p.x ∧ p.x ≤ b.px + b.width ∧
    b.py ≤ p.y ∧ p.y ≤ b.py + b.height ∧
    b.pz ≤ p.z ∧ p.z ≤ b.pz + b.depth)

/-- `AABB::getNearestPointInsideAABB`. -/
def nearestPointInsideAABB (b : AABB) (p : Vec3) : Vec3 :=
  ⟨max b.px (min p.x (b.px + b.width)),
   max b.py (min p.y (b.py + b.height)),
   max b.pz (min p.z (b.pz + b.depth))⟩

/-- `FluidSimulation::_getBoundaryAABB`: the domain box expanded by
`-3*dx - 1e-4`. -/
def getBoundaryAABB (isize jsize ksize : ℕ) (dx : ℚ) : AABB :=
  aabbExpand ⟨0, 0, 0, (isize : ℚ) * dx, (jsize : ℚ) * dx, (ksize : ℚ) * dx⟩
    (-(3 * dx) - 1/10000)

/-- The simulation state entering `_resolveCollision`. -/
structure CollisionEnv where
  isize : ℕ
  jsize : ℕ
  ksize : ℕ
  dx : ℚ
  nearSolidGridCellSize : ℚ
  stepDistanceFactor : ℚ
  cfl : ℚ
  solidBufferWidth : ℚ
  nearSolidGrid : GridIndex → Bool
  solidPhi : Vec3 → ℚ
  solidGrad : Vec3 → Vec3
  vecLength : Vec3 → ℚ

/-- The stepping loop of `_resolveCollision`: march from `oldp` towards
`newp` in `stepDistance` increments (the final step lands exactly on
`newp`), returning the first sample inside a solid or outside the
boundary together with the sample before it, or `none` when no collision
is found. -/
def collisionScanAux (env : CollisionEnv) (boundary : AABB)
    (oldp newp stepdir : Vec3) (stepDistance : ℚ) (numSteps : ℕ) :
    ℕ → ℕ → Vec3 → Option (Vec3 × Vec3 × ℚ)
  | 0, _, _ => none
  | r+1, stepidx, lastPosition =>
    let currentPosition := if stepidx = numSteps - 1 then newp
      else oldp.add (Vec3.smul (((stepidx : ℚ) + 1) * stepDistance) stepdir)
    let phi := env.solidPhi currentPosition
    if phi < 0 ∨ aabbIsPointInside boundary currentPosition = false then
      some (lastPosition, currentPosition, phi)
    else collisionScanAux env boundary oldp newp stepdir stepDistance numSteps
      r (stepidx+1) currentPosition

/-- `FluidSimulation::_resolveCollision`. -/
def resolveCollision (env : CollisionEnv) (boundary : AABB)
    (oldp newp0 : Vec3) : Vec3 :=
  let gridg := positionToGridIndex env.dx newp0
  let newp := if isGridIndexInRange gridg env.isize env.jsize env.ksize
              then newp0 else nearestPointInsideAABB boundary newp0
  let oldg := positionToGridIndex env.nearSolidGridCellSize oldp
  let newg := positionToGridIndex env.nearSolidGridCellSize newp
  if env.nearSolidGrid oldg = false ∧ env.nearSolidGrid newg = false then newp
  else
    let eps : ℚ := 1/1000000
    let stepDistance := env.stepDistanceFactor * env.dx
    let travelDistance := env.vecLength (newp.sub oldp)
    if travelDistance < eps then newp
    else
      let numSteps := (⌈travelDistance / stepDistance⌉).toNat
      let stepdir := Vec3.smul (1 / travelDistance) (newp.sub oldp)
      match collisionScanAux env boundary oldp newp stepdir stepDistance
        numSteps numSteps 0 oldp with
      | none => newp
      | some (lastPosition, currentPosition, collisionPhi) =>
        let maxResolvedDistance := env.cfl * env.dx
        let grad := env.solidGrad currentPosition
        let resolved1 :=
          if env.vecLength grad > eps then
            let gradn := Vec3.smul (1 / env.vecLength grad) grad
            let rp := currentPosition.sub
              (Vec3.smul (collisionPhi - env.solidBufferWidth * env.dx) gradn)
            if env.solidPhi rp < 0 ∨
                env.vecLength (rp.sub currentPosition) > maxResolvedDistance
            then lastPosition else rp
          else lastPosition
        if aabbIsPointInside boundary resolved1 = false then
          let rp := nearestPointInsideAABB boundary resolved1
          if env.solidPhi rp < 0 ∨
              env.vecLength (rp.sub resolved1) > maxResolvedDistance
          then lastPosition else rp
        else resolved1

/-- `FluidSimulation::_resolveMarkerParticleCollisions`: resolve each
advanced position against the boundary AABB further expanded by
`-solidBufferWidth * dx`. -/
def resolveMarkerParticleCollisions (env : CollisionEnv)
    (positionsOld positionsNew : List Vec3) : List Vec3 :=
  let boundary := aabbExpand
    (getBoundaryAABB env.isize env.jsize env.ksize env.dx)
    (-(env.solidBufferWidth * env.dx))
  List.zipWith (resolveCollision env boundary) positionsOld positionsNew

/-- The candidate loop of `FluidSimulation::_addMarkerParticles`: push
back exactly the candidates whose position maps to a grid index inside
the `isize × jsize × ksize` range. -/
def addMarkerParticles (isize jsize ksize : ℕ) (dx : ℚ)
    (existing : List Vec3) (candidates : List Vec3) : List Vec3 :=
  candidates.foldl (fun acc p =>
    if isGridIndexInRange (positionToGridIndex dx p) isize jsize ksize
    then acc ++ [p] else acc) existing

/-- Concrete environment for the C9 counterexample: a `10³` grid with
`dx = 1`, solid buffer width `1/5`, no near-solid cells, no solids. -/
def exCollisionEnv : CollisionEnv :=
  ⟨10, 10, 10, 1, 1, 1/10, 5, 1/5,
   fun _ => false, fun _ => 1, fun _ => ⟨0, 0, 0⟩, fun _ => 0⟩

end FlipFluids

namespace FlipFluids

/-- C1: the FLIP velocity update computes
`ratio * v_grid(p) + (1 - ratio) * (v_old + (v_grid(p) - v_saved(p)))`,
and with `ratio = 1` the result is `v_grid(p)`, independent of the
particle's previous velocity. -/
theorem picflip_update_formula (r : ℚ) (vGrid vSaved : Vec3 → Vec3)
    (p vOld : Vec3) :
    updatePICFLIPVelocity r vGrid vSaved p vOld =
      (Vec3.smul r (vGrid p)).add
        (Vec3.smul (1 - r) (vOld.add ((vGrid p).sub (vSaved p)))) ∧
    updatePICFLIPVelocity 1 vGrid vSaved p vOld = vGrid p ∧
    (∀ vOld' : Vec3, updatePICFLIPVelocity 1 vGrid vSaved p vOld =
      updatePICFLIPVelocity 1 vGrid vSaved p vOld') := by
  refine ⟨?_, ?_, ?_⟩
  · simp only [updatePICFLIPVelocity, Vec3.add, Vec3.sub, Vec3.smul, Vec3.ext_iff]
    refine ⟨by ring, by ring, by ring⟩
  · simp only [updatePICFLIPVelocity, Vec3.add, Vec3.sub, Vec3.smul, Vec3.ext_iff]
    refine ⟨by ring, by ring, by ring⟩
  · intro vOld'
    simp only [updatePICFLIPVelocity, Vec3.add, Vec3.sub, Vec3.smul, Vec3.ext_iff]
    refine ⟨by ring, by ring, by ring⟩

/-- C8: `setPICFLIPRatio` raises exactly when `r < 0 ∨ r > 1`; on a raise
the state is unchanged; on success `getPICFLIPRatio` returns `r` and the
other fields are untouched.  `setDensity` satisfies the same contract with
the precondition `p ≤ 0`. -/
theorem setter_validation_contract (s : FluidSettings) (r p : ℚ) :
    ((setPICFLIPRatio s r).2 = some SimError.domainError ↔ (r < 0 ∨ r > 1)) ∧
    ((r < 0 ∨ r > 1) → (setPICFLIPRatio s r).1 = s) ∧
    (¬(r < 0 ∨ r > 1) →
      getPICFLIPRatio (setPICFLIPRatio s r).1 = r ∧
      getDensity (setPICFLIPRatio s r).1 = getDensity s ∧
      (setPICFLIPRatio s r).1.markerParticleJitterFactor =
        s.markerParticleJitterFactor ∧
      (setPICFLIPRatio s r).2 = none) ∧
    ((setDensity s p).2 = some SimError.domainError ↔ p ≤ 0) ∧
    (p ≤ 0 → (setDensity s p).1 = s) ∧
    (¬(p ≤ 0) →
      getDensity (setDensity s p).1 = p ∧
      getPICFLIPRatio (setDensity s p).1 = getPICFLIPRatio s ∧
      (setDensity s p).2 = none) := by
  refine ⟨?_, ?_, ?_, ?_, ?_, ?_⟩ <;>
    simp only [setPICFLIPRatio, setDensity, getPICFLIPRatio, getDensity]
  · by_cases h : r < 0 ∨ r > 1 <;> simp [h]
  · intro h; simp [h]
  · intro h; simp [h]
  · by_cases h : p ≤ 0 <;> simp [h]
  · intro h; simp [h]
  · intro h; simp [h]

/-!
### Time-stepper lemmas and theorems (claim C2)
-/

theorem substepSize_le_remaining (minSteps maxSteps : ℕ)
    (dt remaining candidate : ℚ) (n : ℕ) :
    substepSize minSteps maxSteps dt remaining candidate n ≤ remaining := by
  unfold substepSize
  dsimp only
  split
  · exact le_refl remaining
  · split
    · exact min_le_right _ _
    · exact min_le_right _ _

theorem substepSize_pos (minSteps maxSteps : ℕ) (dt remaining candidate : ℚ)
    (n : ℕ) (hrem : 0 < remaining) (hcand : 0 < candidate)
    (hsub : 0 < dt / (minSteps : ℚ)) :
    0 < substepSize minSteps maxSteps dt remaining candidate n := by
  unfold substepSize
  dsimp only
  split
  · exact hrem
  · split
    · exact lt_min hsub hrem
    · exact lt_min hcand hrem

theorem substepSize_last (minSteps maxSteps : ℕ) (dt remaining candidate : ℚ)
    (n : ℕ) (h : (n : ℤ) = (maxSteps : ℤ) - 1) :
    substepSize minSteps maxSteps dt remaining candidate n = remaining := by
  unfold substepSize
  dsimp only
  rw [if_pos h]

theorem frameSubstepsAux_succ (minSteps maxSteps : ℕ) (dt : ℚ) (cand : ℕ → ℚ)
    (f n : ℕ) (remaining : ℚ) :
    frameSubstepsAux minSteps maxSteps dt cand (f+1) n remaining =
      (if remaining - substepSize minSteps maxSteps dt remaining (cand n) n
            > 1/1000000000 then
        substepSize minSteps maxSteps dt remaining (cand n) n ::
          frameSubstepsAux minSteps maxSteps dt cand f (n+1)
            (remaining - substepSize minSteps maxSteps dt remaining (cand n) n)
      else [substepSize minSteps maxSteps dt remaining (cand n) n]) := rfl

/-- Invariant of the substep loop: starting at substep index `n` with
`fuel = maxSteps - n ≥ 1` iterations allowed and more than the tolerance
remaining, the loop emits between `1` and `fuel` positive substeps whose
sum equals the remaining time up to the loop tolerance `1e-9`. -/
theorem frameSubstepsAux_spec (minSteps maxSteps : ℕ) (dt : ℚ) (cand : ℕ → ℚ)
    (hsub : 0 < dt / (minSteps : ℚ)) (hcand : ∀ n, 0 < cand n) :
    ∀ (fuel n : ℕ) (remaining : ℚ), n + fuel = maxSteps → 1 ≤ fuel →
      (1/1000000000 : ℚ) < remaining →
      1 ≤ (frameSubstepsAux minSteps maxSteps dt cand fuel n remaining).length ∧
      (frameSubstepsAux minSteps maxSteps dt cand fuel n remaining).length ≤ fuel ∧
      remaining - 1/1000000000 ≤
        (frameSubstepsAux minSteps maxSteps dt cand fuel n remaining).sum ∧
      (frameSubstepsAux minSteps maxSteps dt cand fuel n remaining).sum ≤ remaining ∧
      ∀ s ∈ frameSubstepsAux minSteps maxSteps dt cand fuel n remaining, 0 < s := by
  intro fuel
  induction fuel with
  | zero => intro n remaining _ hf _; exact absurd hf (by omega)
  | succ f ih =>
    intro n remaining hinv _ hrem
    have hrempos : 0 < remaining := lt_trans (by norm_num) hrem
    have hstep_le : substepSize minSteps maxSteps dt remaining (cand n) n ≤
        remaining := substepSize_le_remaining _ _ _ _ _ _
    have hstep_pos : 0 < substepSize minSteps maxSteps dt remaining (cand n) n :=
      substepSize_pos _ _ _ _ _ _ hrempos (hcand n) hsub
    rw [frameSubstepsAux_succ]
    by_cases hcont : remaining - substepSize minSteps maxSteps dt remaining
        (cand n) n > 1/1000000000
    · rw [if_pos hcont]
      have hf1 : 1 ≤ f := by
        by_contra hf0
        have hfz : f = 0 := by omega
        subst hfz
        have hn : (n : ℤ) = (maxSteps : ℤ) - 1 := by omega
        rw [substepSize_last _ _ _ _ _ _ hn] at hcont
        simp at hcont
        exact absurd hcont (by norm_num)
      obtain ⟨ih1, ih2, ih3, ih4, ih5⟩ := ih (n+1)
        (remaining - substepSize minSteps maxSteps dt remaining (cand n) n)
        (by omega) hf1 hcont
      refine ⟨by simp, by simpa using ih2, ?_, ?_, ?_⟩
      · simp only [List.sum_cons]
        linarith
      · simp only [List.sum_cons]
        linarith
      · intro s hs
        rcases List.mem_cons.mp hs with h | h
        · rw [h]; exact hstep_pos
        · exact ih5 s h
    · rw [if_neg hcont]
      push_neg at hcont
      refine ⟨by simp, by simp, ?_, ?_, ?_⟩
      · simp only [List.sum_singleton]
        linarith
      · simp only [List.sum_singleton]
        exact hstep_le
      · intro s hs
        rw [List.mem_singleton.mp hs]
        exact hstep_pos

/-- C2 counterexample: with `CFL = 1`, `dx = 1/2500000`, `v_max = 0`, a
frame of `dt = 1`, surface tension disabled, `min_substeps = 1` and
`max_substeps = 24`, the code's first substep is `1/3` — the CFL candidate
`0.4` rounded down to an equal division of the frame — whereas the
specification's formula `min(CFL * dx / (v_max + eps), remaining)` gives
`2/5`. -/
theorem substep_size_counterexample :
    frameSubsteps 1 24 1
      (fun _ => calculateNextTimeStep 1 (1/2500000) 0 false 0 0 1) =
        [1/3, 1/3, 1/3] ∧
    specSubstepFormula 1 (1/2500000) 0 1 = 2/5 ∧
    ((1 : ℚ)/3 ≠ 2/5) := by
  have hceil : ⌈(5:ℚ)/2⌉ = 3 := by
    rw [Int.ceil_eq_iff]; norm_num
  have hcand : calculateNextTimeStep 1 (1/2500000) 0 false 0 0 1 = 1/3 := by
    norm_num [calculateNextTimeStep, hceil]
  refine ⟨?_, ?_, by norm_num⟩
  · rw [hcand]
    norm_num [frameSubsteps, frameSubstepsAux, substepSize]
  · norm_num [specSubstepFormula]

/-- C2 amended: the substep sizes of a frame are produced by the code's
schedule (CFL candidate rounded to an equal division of the frame, capped
by the remaining time and the `dt/min_substeps` schedule, with the last
allowed substep taking all remaining time); the frame executes at least
one and at most `max_time_steps_per_frame` substeps, every substep is
positive, and the sizes sum to the frame delta time up to the loop
tolerance `1e-9`. -/
theorem substep_schedule_amended (minSteps maxSteps : ℕ) (dt : ℚ)
    (cand : ℕ → ℚ) (hmin : 1 ≤ minSteps) (hmax : 1 ≤ maxSteps)
    (hdt : 1/1000000 ≤ dt) (hcand : ∀ n, 0 < cand n) :
    1 ≤ (frameSubsteps minSteps maxSteps dt cand).length ∧
    (frameSubsteps minSteps maxSteps dt cand).length ≤ maxSteps ∧
    dt - 1/1000000000 ≤ (frameSubsteps minSteps maxSteps dt cand).sum ∧
    (frameSubsteps minSteps maxSteps dt cand).sum ≤ dt ∧
    ∀ s ∈ frameSubsteps minSteps maxSteps dt cand, 0 < s := by
  have hdt0 : (0 : ℚ) < dt := lt_of_lt_of_le (by norm_num) hdt
  have hsub : 0 < dt / (minSteps : ℚ) :=
    div_pos hdt0 (by exact_mod_cast Nat.cast_pos.mpr (by omega))
  exact frameSubstepsAux_spec minSteps maxSteps dt cand hsub hcand maxSteps 0 dt
    (by omega) hmax (lt_of_lt_of_le (by norm_num) hdt)

/-- Witness for C2's amended theorem at `min = 1`, `max = 24`, `dt = 1`,
constant CFL candidate `1/3`. -/
theorem substep_schedule_amended_witness :
    1 ≤ (frameSubsteps 1 24 1 (fun _ => 1/3)).length ∧
    (frameSubsteps 1 24 1 (fun _ => 1/3)).length ≤ 24 ∧
    (1 : ℚ) - 1/1000000000 ≤ (frameSubsteps 1 24 1 (fun _ => 1/3)).sum ∧
    (frameSubsteps 1 24 1 (fun _ => 1/3)).sum ≤ 1 ∧
    ∀ s ∈ frameSubsteps 1 24 1 (fun _ => 1/3), 0 < s :=
  substep_schedule_amended 1 24 1 (fun _ => 1/3) (by norm_num) (by norm_num)
    (by norm_num) (fun _ => by norm_num)

/-!
### `update(dt)` theorems (claims C4, C10)
-/

theorem foldl_keep {α β : Type _} (l : List β) (a : α) :
    l.foldl (fun x _ => x) a = a := by
  induction l generalizing a with
  | nil => rfl
  | cons b t ih => exact ih a

theorem frameSubstepsAux_length_pos (minSteps maxSteps : ℕ) (dt : ℚ)
    (cand : ℕ → ℚ) (fuel n : ℕ) (remaining : ℚ) (hf : 1 ≤ fuel) :
    1 ≤ (frameSubstepsAux minSteps maxSteps dt cand fuel n remaining).length := by
  cases fuel with
  | zero => exact absurd hf (by omega)
  | succ f =>
    rw [frameSubstepsAux_succ]
    split <;> simp

/-- C4: `update(dt)` raises `NotInitialized` (checked first) when the
simulation was never initialized and `DomainError` when `dt < 0`; it
raises in exactly those cases, and both raises precede any state change.
For an initialized simulation and `dt ≥ 0` the frame runs to completion:
the result carries the finished flag and a frame counter advanced by
one. -/
theorem update_contract {α : Type} (minSteps maxSteps : ℕ) (cand : ℕ → ℚ)
    (dbg : Bool) (stepFluid : ℚ → α → α) (s : SimState α) (dt : ℚ) :
    (s.isSimulationInitialized = false →
      updateSim minSteps maxSteps cand dbg stepFluid s dt =
        Except.error SimError.notInitialized) ∧
    (s.isSimulationInitialized = true → dt < 0 →
      updateSim minSteps maxSteps cand dbg stepFluid s dt =
        Except.error SimError.domainError) ∧
    ((∃ e, updateSim minSteps maxSteps cand dbg stepFluid s dt =
        Except.error e) ↔ (s.isSimulationInitialized = false ∨ dt < 0)) ∧
    (s.isSimulationInitialized = true → 0 ≤ dt →
      ((updateSim minSteps maxSteps cand dbg stepFluid s dt).toOption.map
        (fun s' => (s'.isCurrentFrameFinished, s'.currentFrame))) =
        some (true, s.currentFrame + 1)) := by
  refine ⟨?_, ?_, ?_, ?_⟩
  · intro h
    unfold updateSim
    rw [if_pos (by simp [h])]
  · intro h1 h2
    unfold updateSim
    rw [if_neg (by simp [h1]), if_pos h2]
  · constructor
    · rintro ⟨e, he⟩
      by_cases hinit : s.isSimulationInitialized = true
      · by_cases hdt : dt < 0
        · exact Or.inr hdt
        · unfold updateSim at he
          rw [if_neg (by simp [hinit]), if_neg hdt] at he
          exact absurd he (by simp)
      · exact Or.inl (by simpa using hinit)
    · rintro (h | h)
      · refine ⟨SimError.notInitialized, ?_⟩
        unfold updateSim
        rw [if_pos (by simp [h])]
      · by_cases hinit : s.isSimulationInitialized = true
        · refine ⟨SimError.domainError, ?_⟩
          unfold updateSim
          rw [if_neg (by simp [hinit]), if_pos h]
        · refine ⟨SimError.notInitialized, ?_⟩
          unfold updateSim
          rw [if_pos (by simp [hinit])]
  · intro hinit hdt
    have hdt' : ¬dt < 0 := not_lt.mpr hdt
    unfold updateSim
    rw [if_neg (by simp [hinit]), if_neg hdt']
    rfl

/-- Witness for C4 at a concrete initialized state, `dt = 1` (success) and
`dt = -1` (domain error). -/
theorem update_contract_witness :
    updateSim 1 24 (fun _ => (1:ℚ)/3) false (fun _ (a : ℕ) => a + 1)
      ⟨true, 0, false, false, 0⟩ (-1) = Except.error SimError.domainError ∧
    ((updateSim 1 24 (fun _ => (1:ℚ)/3) false (fun _ (a : ℕ) => a + 1)
        ⟨true, 0, false, false, 0⟩ 1).toOption.map
      (fun s' => (s'.isCurrentFrameFinished, s'.currentFrame))) =
      some (true, 0 + 1) := by
  have h1 := update_contract 1 24 (fun _ => (1:ℚ)/3) false
    (fun _ (a : ℕ) => a + 1) ⟨true, 0, false, false, 0⟩ (-1)
  have h2 := update_contract 1 24 (fun _ => (1:ℚ)/3) false
    (fun _ (a : ℕ) => a + 1) ⟨true, 0, false, false, 0⟩ 1
  exact ⟨h1.2.1 rfl (by norm_num), h2.2.2.2 rfl (by norm_num)⟩

/-- C10: `update(dt)` accepts `dt = 0` (and any `0 ≤ dt < 1e-6`): the
delta time is clamped up to `1e-6`; when output data from a previous
frame exists and no debug outputs are enabled the frame is skipped —
`_stepFluid` performs none of the pipeline stages, so the pipeline-visible
state is unchanged — yet the substep loop still runs at least one substep
on the clamped delta time, the frame counter advances and the frame is
marked finished. -/
theorem update_zero_dt_skipped {α : Type} (minSteps maxSteps : ℕ)
    (cand : ℕ → ℚ) (stepFluid : ℚ → α → α) (s : SimState α)
    (hinit : s.isSimulationInitialized = true)
    (hout : s.outputDataIsInitialized = true)
    (hmax : 1 ≤ maxSteps) (dt : ℚ) (hdt0 : 0 ≤ dt) (hdt1 : dt < 1/1000000) :
    updateSim minSteps maxSteps cand false stepFluid s dt =
      Except.ok { s with
        currentFrame := s.currentFrame + 1
        isCurrentFrameFinished := true
        outputDataIsInitialized := true } ∧
    1 ≤ (frameSubsteps minSteps maxSteps (1/1000000) cand).length := by
  have hdt' : ¬dt < 0 := not_lt.mpr hdt0
  have hclamp : max dt (1/1000000 : ℚ) = 1/1000000 := max_eq_right (le_of_lt hdt1)
  constructor
  · unfold updateSim
    rw [if_neg (by simp [hinit]), if_neg hdt']
    have hdt1' : dt < (1000000 : ℚ)⁻¹ := by rw [← one_div]; exact hdt1
    have hskip : (decide (dt < 1/1000000) && s.outputDataIsInitialized &&
        !false) = true := by
      simp [hdt1', hout]
    simp only [hskip, if_true, foldl_keep]
  · exact frameSubstepsAux_length_pos minSteps maxSteps (1/1000000) cand
      maxSteps 0 (1/1000000) hmax

/-- Witness for C10 at a concrete state with previous output data and
`dt = 0`. -/
theorem update_zero_dt_skipped_witness :
    updateSim 1 24 (fun _ => (1:ℚ)/3) false (fun _ (a : ℕ) => a + 1)
      ⟨true, 7, false, true, 42⟩ 0 =
      Except.ok ⟨true, 8, true, true, 42⟩ ∧
    1 ≤ (frameSubsteps 1 24 (1/1000000) (fun _ => (1:ℚ)/3)).length := by
  have h := update_zero_dt_skipped 1 24 (fun _ => (1:ℚ)/3)
    (fun _ (a : ℕ) => a + 1) ⟨true, 7, false, true, 42⟩ rfl rfl
    (by norm_num) 0 (by norm_num) (by norm_num)
  exact h

/-!
### Pressure-solver status theorems (claim C3)
-/

/-- C3 (code bug): the reset at the top of `_pressureSolve` makes the
frame-level reduction forget earlier substeps.  With a failing first
substep (100 iterations) followed by a succeeding second substep
(5 iterations), the code reports overall success with 5 iterations,
whereas the reduction described by the specification — and by the comment
inside `_pressureSolve` itself — keeps the first failure. -/
theorem pressure_status_reset_bug :
    frameSolverStatus [⟨false, 100, 0⟩, ⟨true, 5, 0⟩] = ⟨true, 5, 0⟩ ∧
    specFrameSolverStatus [⟨false, 100, 0⟩, ⟨true, 5, 0⟩] = ⟨false, 100, 0⟩ ∧
    (SolverStatus.success ⟨true, 5, 0⟩ ≠ SolverStatus.success ⟨false, 100, 0⟩) := by
  refine ⟨?_, ?_, by simp⟩
  · simp [frameSolverStatus, pressureSolveStatusStep]
  · simp [specFrameSolverStatus, specSolverStatusStep]

/-!
### Extrapolation layer count theorems (claim C7)
-/

/-- C7: whenever fluid velocities are extrapolated, the layer count handed
to the MAC grid is `ceil(sqrt(3) * CFL) + 3` — for every CFL condition
number and every extrapolation implementation — and `ceil(sqrt(3) * CFL)`
is the least integer bounding `sqrt(3) * CFL` from above. -/
theorem extrapolation_layer_count {grid : Type}
    (extrapolateVelocityField : grid → ℤ → grid) (cfl : ℚ) (g : grid) :
    extrapolateFluidVelocities extrapolateVelocityField cfl g =
      extrapolateVelocityField g (⌈sqrtThree * cfl⌉ + 3) ∧
    sqrtThree * cfl ≤ ((numExtrapolationLayers cfl - 3 : ℤ) : ℚ) ∧
    (∀ m : ℤ, sqrtThree * cfl ≤ (m : ℚ) → numExtrapolationLayers cfl - 3 ≤ m) := by
  refine ⟨rfl, ?_, ?_⟩
  · unfold numExtrapolationLayers
    push_cast
    simp only [add_sub_cancel_right]
    exact Int.le_ceil _
  · intro m hm
    unfold numExtrapolationLayers
    have : ⌈sqrtThree * cfl⌉ ≤ m := Int.ceil_le.mpr hm
    omega

/-- Witness for C7 at the default CFL condition number 5: the layer count
is `ceil(sqrt(3) * 5) + 3 = 12`. -/
theorem extrapolation_layer_count_witness :
    extrapolateFluidVelocities (fun (g n : ℤ) => g + n) 5 0 =
      0 + (⌈sqrtThree * 5⌉ + 3) ∧
    sqrtThree * 5 ≤ ((numExtrapolationLayers 5 - 3 : ℤ) : ℚ) ∧
    numExtrapolationLayers 5 - 3 ≤ 9 := by
  have h := extrapolation_layer_count (fun (g n : ℤ) => g + n) 5 (0 : ℤ)
  exact ⟨h.1, h.2.1, h.2.2 9 (by norm_num [sqrtThree])⟩

/-!
### Outflow culling theorems (claim C5)
-/

/-- C5: after the fluid-outflow pass of `_updateOutflowMeshFluidSource`,
no kept particle in an outflow-marked cell has a negative source-SDF value
(normal outflow) or a non-negative one (inversed outflow); every particle
not satisfying the removal condition is kept, and the kept particles are
an order-preserving sublist of the originals. -/
theorem outflow_culling (inversed : Bool) (sourceCells : List GridIndex)
    (sourceSDF : Vec3 → ℚ) (offset : Vec3) (dx : ℚ) (positions : List Vec3) :
    (∀ p ∈ updateOutflowMeshFluidSource inversed sourceCells sourceSDF offset
        dx positions,
      isOutflowCell inversed sourceCells (positionToGridIndex dx p) = true →
      (if inversed then sourceSDF (p.sub offset) < 0
       else 0 ≤ sourceSDF (p.sub offset))) ∧
    (∀ p ∈ positions,
      outflowRemovalTest inversed sourceCells sourceSDF offset dx p = false →
      p ∈ updateOutflowMeshFluidSource inversed sourceCells sourceSDF offset
        dx positions) ∧
    (updateOutflowMeshFluidSource inversed sourceCells sourceSDF offset dx
        positions).Sublist positions := by
  refine ⟨?_, ?_, List.filter_sublist positions⟩
  · intro p hp hcell
    have hmem := List.mem_filter.mp hp
    have htest : outflowRemovalTest inversed sourceCells sourceSDF offset dx p
        = false := by
      have := hmem.2
      simpa using this
    unfold outflowRemovalTest at htest
    rw [if_pos hcell] at htest
    cases inversed with
    | false =>
      simp only [if_neg Bool.false_ne_true, decide_eq_false_iff_not, not_lt]
        at htest
      simpa using htest
    | true =>
      simp only [if_pos rfl, decide_eq_false_iff_not, not_le] at htest
      simpa using htest
  · intro p hp htest
    exact List.mem_filter.mpr ⟨hp, by simp [htest]⟩

/-- Witness for C5: a single particle in the source cell with positive
SDF value survives a normal outflow pass. -/
theorem outflow_culling_witness :
    (0 : ℚ) ≤ (fun _ : Vec3 => (1 : ℚ)) ((Vec3.mk 0 0 0).sub (Vec3.mk 0 0 0)) := by
  have h := (outflow_culling false [⟨0, 0, 0⟩] (fun _ => (1 : ℚ)) ⟨0, 0, 0⟩ 1
    [⟨0, 0, 0⟩]).1 ⟨0, 0, 0⟩
  have hmem : (⟨0, 0, 0⟩ : Vec3) ∈ updateOutflowMeshFluidSource false
      [⟨0, 0, 0⟩] (fun _ => (1 : ℚ)) ⟨0, 0, 0⟩ 1 [⟨0, 0, 0⟩] := by
    refine List.mem_filter.mpr ⟨List.mem_singleton.mpr rfl, ?_⟩
    simp [outflowRemovalTest, isOutflowCell, positionToGridIndex]
  have hcell : isOutflowCell false [⟨0, 0, 0⟩]
      (positionToGridIndex 1 ⟨0, 0, 0⟩) = true := by
    simp [isOutflowCell, positionToGridIndex]
  have hres := h hmem hcell
  rw [if_neg (by simp)] at hres
  exact hres

/-!
### Inflow emission theorems (claim C6)
-/

theorem addNewFluidCellsStep_mask_mono (dx : ℚ) (meshSDF : Vec3 → ℚ)
    (sdfoffset : Vec3) (solidSDF : Vec3 → ℚ) (jitterEnabled : Bool)
    (jit : Vec3 → Vec3) (st : List Vec3 × List GridIndex) (p : Vec3)
    (x : GridIndex) (hx : x ∈ st.2) :
    x ∈ (addNewFluidCellsStep dx meshSDF sdfoffset solidSDF jitterEnabled jit
      st p).2 := by
  unfold addNewFluidCellsStep
  split_ifs with h1 h2 h3
  · exact hx
  · exact hx
  · exact List.mem_cons_of_mem _ hx
  · exact hx

theorem addNewFluidCells_foldl_mask_mono (dx : ℚ) (meshSDF : Vec3 → ℚ)
    (sdfoffset : Vec3) (solidSDF : Vec3 → ℚ) (jitterEnabled : Bool)
    (jit : Vec3 → Vec3) :
    ∀ (l : List Vec3) (st : List Vec3 × List GridIndex) (x : GridIndex),
      x ∈ st.2 →
      x ∈ (l.foldl (addNewFluidCellsStep dx meshSDF sdfoffset solidSDF
        jitterEnabled jit) st).2 := by
  intro l
  induction l with
  | nil => intro st x hx; exact hx
  | cons q t ih =>
    intro st x hx
    exact ih _ x (addNewFluidCellsStep_mask_mono dx meshSDF sdfoffset solidSDF
      jitterEnabled jit st q x hx)

theorem addNewFluidCellsStep_settles (dx : ℚ) (meshSDF : Vec3 → ℚ)
    (sdfoffset : Vec3) (solidSDF : Vec3 → ℚ) (jitterEnabled : Bool)
    (jit : Vec3 → Vec3)
    (Hjit : ∀ p, subCellIndex dx (jit p) = subCellIndex dx p)
    (st : List Vec3 × List GridIndex) (p : Vec3) :
    emissionSettled dx meshSDF sdfoffset solidSDF jitterEnabled jit
      (addNewFluidCellsStep dx meshSDF sdfoffset solidSDF jitterEnabled jit
        st p).2 p := by
  have hsub : subCellIndex dx
      (emissionJitterSel dx meshSDF sdfoffset jitterEnabled jit p) =
      subCellIndex dx p := by
    unfold emissionJitterSel
    split_ifs with h
    · exact Hjit p
    · rfl
  unfold addNewFluidCellsStep
  split_ifs with h1 h2 h3
  · exact Or.inl (of_decide_eq_true h1)
  · exact Or.inr (Or.inl h2)
  · refine Or.inl ?_
    rw [← hsub]
    exact List.mem_cons_self _ _
  · exact Or.inr (Or.inr ⟨h2, h3⟩)

theorem emissionSettled_mono (dx : ℚ) (meshSDF : Vec3 → ℚ) (sdfoffset : Vec3)
    (solidSDF : Vec3 → ℚ) (jitterEnabled : Bool) (jit : Vec3 → Vec3)
    (m m' : List GridIndex) (p : Vec3) (hmm : ∀ x, x ∈ m → x ∈ m')
    (h : emissionSettled dx meshSDF sdfoffset solidSDF jitterEnabled jit m p) :
    emissionSettled dx meshSDF sdfoffset solidSDF jitterEnabled jit m' p := by
  rcases h with h | h
  · exact Or.inl (hmm _ h)
  · exact Or.inr h

theorem addNewFluidCells_settles_all (dx : ℚ) (meshSDF : Vec3 → ℚ)
    (sdfoffset : Vec3) (solidSDF : Vec3 → ℚ) (jitterEnabled : Bool)
    (jit : Vec3 → Vec3)
    (Hjit : ∀ p, subCellIndex dx (jit p) = subCellIndex dx p) :
    ∀ (l : List Vec3) (st : List Vec3 × List GridIndex) (p : Vec3), p ∈ l →
      emissionSettled dx meshSDF sdfoffset solidSDF jitterEnabled jit
        (l.foldl (addNewFluidCellsStep dx meshSDF sdfoffset solidSDF
          jitterEnabled jit) st).2 p := by
  intro l
  induction l with
  | nil => intro st p hp; exact absurd hp (List.not_mem_nil p)
  | cons q t ih =>
    intro st p hp
    rcases List.mem_cons.mp hp with rfl | hp
    · exact emissionSettled_mono dx meshSDF sdfoffset solidSDF jitterEnabled jit
        _ _ p
        (fun x hx => addNewFluidCells_foldl_mask_mono dx meshSDF sdfoffset
          solidSDF jitterEnabled jit t _ x hx)
        (addNewFluidCellsStep_settles dx meshSDF sdfoffset solidSDF
          jitterEnabled jit Hjit st p)
    · exact ih _ p hp

theorem addNewFluidCellsStep_of_settled (dx : ℚ) (meshSDF : Vec3 → ℚ)
    (sdfoffset : Vec3) (solidSDF : Vec3 → ℚ) (jitterEnabled : Bool)
    (jit : Vec3 → Vec3) (st : List Vec3 × List GridIndex) (p : Vec3)
    (h : emissionSettled dx meshSDF sdfoffset solidSDF jitterEnabled jit
      st.2 p) :
    addNewFluidCellsStep dx meshSDF sdfoffset solidSDF jitterEnabled jit
      st p = st := by
  unfold addNewFluidCellsStep
  split_ifs with h1 h2 h3
  · rfl
  · rfl
  · exfalso
    rcases h with h | h | h
    · exact h1 (decide_eq_true h)
    · exact h2 h
    · exact h.2 h3
  · rfl

theorem addNewFluidCells_foldl_of_settled (dx : ℚ) (meshSDF : Vec3 → ℚ)
    (sdfoffset : Vec3) (solidSDF : Vec3 → ℚ) (jitterEnabled : Bool)
    (jit : Vec3 → Vec3) :
    ∀ (l : List Vec3) (st : List Vec3 × List GridIndex),
      (∀ p ∈ l, emissionSettled dx meshSDF sdfoffset solidSDF jitterEnabled jit
        st.2 p) →
      l.foldl (addNewFluidCellsStep dx meshSDF sdfoffset solidSDF
        jitterEnabled jit) st = st := by
  intro l
  induction l with
  | nil => intro st _; rfl
  | cons q t ih =>
    intro st h
    have hq : addNewFluidCellsStep dx meshSDF sdfoffset solidSDF jitterEnabled
        jit st q = st :=
      addNewFluidCellsStep_of_settled dx meshSDF sdfoffset solidSDF
        jitterEnabled jit st q (h q (List.mem_cons_self q t))
    rw [List.foldl_cons, hq]
    exact ih st (fun p hp => h p (List.mem_cons_of_mem q hp))

/-- C6 counterexample: in the velocity-field overload the mask is checked
at the unjittered candidate but marked at the jittered particle, so a
second identical emission can create particles.  With `dx = 2`, one source
cell, a deep SDF value at the first candidate only, no solid, and a jitter
displacement of one sub-cell along x, the second run creates a particle
again. -/
theorem inflow_idempotence_counterexample :
    (addNewFluidCellsVField 2 [⟨0, 0, 0⟩] exMeshSDF ⟨0, 0, 0⟩ (fun _ => 1)
      false exJit
      ((addNewFluidCellsVField 2 [⟨0, 0, 0⟩] exMeshSDF ⟨0, 0, 0⟩ (fun _ => 1)
        false exJit []).2)).1 = [⟨3/2, 1/2, 1/2⟩] ∧
    ([ (⟨3/2, 1/2, 1/2⟩ : Vec3) ] ≠ ([] : List Vec3)) := by
  have h0 : (⌊(1:ℚ)/2⌋ : ℤ) = 0 := by rw [Int.floor_eq_iff]; norm_num
  have h1 : (⌊(3:ℚ)/2⌋ : ℤ) = 1 := by rw [Int.floor_eq_iff]; norm_num
  constructor
  · norm_num [addNewFluidCellsVField, addNewFluidCellsStep, emissionJitterSel,
      candidatePositions, particleOffsets, gridIndexToCellCenter, subCellIndex,
      positionToGridIndex, isSubCellSet, exMeshSDF, exJit, Vec3.add, Vec3.sub,
      h0, h1, List.foldl, List.flatMap]
  · simp

/-- C6 amended: the velocity-field overload checks the mask at the
unjittered candidate and marks it at the jittered particle, so a second
identical emission (same cells, same SDF, same jitter) is guaranteed to
create no particles — leaving the mask unchanged — provided every applied
jitter keeps the particle inside its candidate's sub-cell (true in
particular with no jitter, or with a jitter factor `≤ 1`, whose
displacement is below `dx/4`); the threaded overloads check and mark the
mask at the same final position, so for them a second pass over the same
candidates creates no particles unconditionally. -/
theorem inflow_emission_idempotent_amended (dx : ℚ) (cells : List GridIndex)
    (meshSDF : Vec3 → ℚ) (sdfoffset : Vec3) (solidSDF : Vec3 → ℚ)
    (jitterEnabled : Bool) (jit : Vec3 → Vec3) (mask : List GridIndex)
    (candidates : List Vec3)
    (Hjit : ∀ p, subCellIndex dx (jit p) = subCellIndex dx p) :
    (addNewFluidCellsVField dx cells meshSDF sdfoffset solidSDF jitterEnabled
      jit
      ((addNewFluidCellsVField dx cells meshSDF sdfoffset solidSDF
        jitterEnabled jit mask).2)).1 = [] ∧
    (addNewFluidCellsVField dx cells meshSDF sdfoffset solidSDF jitterEnabled
      jit
      ((addNewFluidCellsVField dx cells meshSDF sdfoffset solidSDF
        jitterEnabled jit mask).2)).2 =
      (addNewFluidCellsVField dx cells meshSDF sdfoffset solidSDF jitterEnabled
        jit mask).2 ∧
    (addNewFluidCellsJoin dx candidates
      ((addNewFluidCellsJoin dx candidates mask).2)).1 = [] := by
  have hsettled : ∀ p ∈ candidatePositions dx cells,
      emissionSettled dx meshSDF sdfoffset solidSDF jitterEnabled jit
        ((addNewFluidCellsVField dx cells meshSDF sdfoffset solidSDF
          jitterEnabled jit mask).2) p :=
    fun p hp => addNewFluidCells_settles_all dx meshSDF sdfoffset solidSDF
      jitterEnabled jit Hjit (candidatePositions dx cells) ([], mask) p hp
  have hrun2 : addNewFluidCellsVField dx cells meshSDF sdfoffset solidSDF
      jitterEnabled jit
      ((addNewFluidCellsVField dx cells meshSDF sdfoffset solidSDF
        jitterEnabled jit mask).2) =
      ([], (addNewFluidCellsVField dx cells meshSDF sdfoffset solidSDF
        jitterEnabled jit mask).2) :=
    addNewFluidCells_foldl_of_settled dx meshSDF sdfoffset solidSDF
      jitterEnabled jit (candidatePositions dx cells) _ hsettled
  refine ⟨by rw [hrun2], by rw [hrun2], ?_⟩
  -- the join loop: every candidate is masked after the first pass
  have hjoin_mono : ∀ (l : List Vec3) (st : List Vec3 × List GridIndex)
      (x : GridIndex), x ∈ st.2 →
      x ∈ (l.foldl (fun st p => if isSubCellSet st.2 dx p then st
        else (st.1 ++ [p], subCellIndex dx p :: st.2)) st).2 := by
    intro l
    induction l with
    | nil => intro st x hx; exact hx
    | cons q t ih =>
      intro st x hx
      refine ih _ x ?_
      by_cases h : isSubCellSet st.2 dx q
      · simpa [h] using hx
      · simp only [h, if_false, Bool.false_eq_true]
        exact List.mem_cons_of_mem _ hx
  have hjoin_settled : ∀ p ∈ candidates, subCellIndex dx p ∈
      (addNewFluidCellsJoin dx candidates mask).2 := by
    unfold addNewFluidCellsJoin
    have : ∀ (l : List Vec3) (st : List Vec3 × List GridIndex), ∀ p ∈ l,
        subCellIndex dx p ∈ (l.foldl (fun st p =>
          if isSubCellSet st.2 dx p then st
          else (st.1 ++ [p], subCellIndex dx p :: st.2)) st).2 := by
      intro l
      induction l with
      | nil => intro st p hp; exact absurd hp (List.not_mem_nil p)
      | cons q t ih =>
        intro st p hp
        rcases List.mem_cons.mp hp with rfl | hp
        · refine hjoin_mono t _ _ ?_
          by_cases h : isSubCellSet st.2 dx p
          · simpa [h] using of_decide_eq_true h
          · simp only [h, if_false, Bool.false_eq_true]
            exact List.mem_cons_self _ _
        · exact ih _ p hp
    exact this candidates ([], mask)
  have hjoin_run2 : addNewFluidCellsJoin dx candidates
      ((addNewFluidCellsJoin dx candidates mask).2) =
      ([], (addNewFluidCellsJoin dx candidates mask).2) := by
    unfold addNewFluidCellsJoin
    have : ∀ (l : List Vec3) (st : List Vec3 × List GridIndex),
        (∀ p ∈ l, subCellIndex dx p ∈ st.2) →
        l.foldl (fun st p => if isSubCellSet st.2 dx p then st
          else (st.1 ++ [p], subCellIndex dx p :: st.2)) st = st := by
      intro l
      induction l with
      | nil => intro st _; rfl
      | cons q t ih =>
        intro st h
        have hq : isSubCellSet st.2 dx q = true :=
          decide_eq_true (h q (List.mem_cons_self q t))
        rw [List.foldl_cons, if_pos hq]
        exact ih st (fun p hp => h p (List.mem_cons_of_mem q hp))
    exact this candidates ([], _) hjoin_settled
  rw [hjoin_run2]

/-- Witness for C6's amended theorem: with the identity jitter (which
trivially preserves sub-cells) the second emission over the
counterexample's cell creates nothing, for both overload shapes. -/
theorem inflow_emission_idempotent_amended_witness :
    (addNewFluidCellsVField 2 [⟨0, 0, 0⟩] exMeshSDF ⟨0, 0, 0⟩ (fun _ => 1)
      false (fun p => p)
      ((addNewFluidCellsVField 2 [⟨0, 0, 0⟩] exMeshSDF ⟨0, 0, 0⟩ (fun _ => 1)
        false (fun p => p) []).2)).1 = [] ∧
    (addNewFluidCellsVField 2 [⟨0, 0, 0⟩] exMeshSDF ⟨0, 0, 0⟩ (fun _ => 1)
      false (fun p => p)
      ((addNewFluidCellsVField 2 [⟨0, 0, 0⟩] exMeshSDF ⟨0, 0, 0⟩ (fun _ => 1)
        false (fun p => p) []).2)).2 =
      (addNewFluidCellsVField 2 [⟨0, 0, 0⟩] exMeshSDF ⟨0, 0, 0⟩ (fun _ => 1)
        false (fun p => p) []).2 ∧
    (addNewFluidCellsJoin 2 [⟨1/2, 1/2, 1/2⟩]
      ((addNewFluidCellsJoin 2 [⟨1/2, 1/2, 1/2⟩] []).2)).1 = [] :=
  inflow_emission_idempotent_amended 2 [⟨0, 0, 0⟩] exMeshSDF ⟨0, 0, 0⟩
    (fun _ => 1) false (fun p => p) [] [⟨1/2, 1/2, 1/2⟩] (fun _ => rfl)

/-!
### Marker-particle containment theorems (claim C9)
-/

theorem addMarkerParticles_eq_filter (isize jsize ksize : ℕ) (dx : ℚ) :
    ∀ (candidates existing : List Vec3),
      addMarkerParticles isize jsize ksize dx existing candidates =
        existing ++ candidates.filter (fun p =>
          isGridIndexInRange (positionToGridIndex dx p) isize jsize ksize) := by
  intro candidates
  induction candidates with
  | nil => intro existing; simp [addMarkerParticles]
  | cons p t ih =>
    intro existing
    unfold addMarkerParticles at ih ⊢
    rw [List.foldl_cons]
    by_cases h : isGridIndexInRange (positionToGridIndex dx p) isize jsize ksize
    · rw [if_pos h, ih (existing ++ [p]), List.filter_cons, if_pos h]
      simp
    · rw [if_neg h, ih existing, List.filter_cons, if_neg h]

/-- C9 counterexample: a particle advanced to a position inside the grid
index range but inside the solid-buffer band (here `x = 1/2` on a `10³`
grid with `dx = 1`, where the collision boundary starts at
`x = 1.60005`), with no near-solid cells on its path, is returned
unchanged by `_resolveMarkerParticleCollisions` — it is not clamped back
inside the shrunk AABB, contradicting the claimed containment
invariant. -/
theorem marker_particle_buffer_counterexample :
    resolveMarkerParticleCollisions exCollisionEnv
      [⟨5, 5, 5⟩] [⟨1/2, 5, 5⟩] = [⟨1/2, 5, 5⟩] ∧
    aabbIsPointInside
      (aabbExpand (getBoundaryAABB 10 10 10 1) (-(1/5 * 1)))
      ⟨1/2, 5, 5⟩ = false ∧
    isGridIndexInRange (positionToGridIndex 1 ⟨1/2, 5, 5⟩) 10 10 10 = true := by
  have h0 : (⌊(1:ℚ)/2⌋ : ℤ) = 0 := by rw [Int.floor_eq_iff]; norm_num
  have h5 : (⌊(5:ℚ)⌋ : ℤ) = 5 := by rw [Int.floor_eq_iff]; norm_num
  refine ⟨?_, ?_, ?_⟩
  · norm_num [resolveMarkerParticleCollisions, resolveCollision,
      exCollisionEnv, positionToGridIndex, isGridIndexInRange, h0, h5]
  · norm_num [aabbIsPointInside, aabbExpand, getBoundaryAABB]
  · norm_num [positionToGridIndex, isGridIndexInRange, h0, h5]

/-- C9 amended: `_addMarkerParticles` keeps, in order, exactly the
candidates whose grid index lies in the `isize × jsize × ksize` range;
`_resolveCollision` clamps a position into the buffer-shrunk boundary AABB
only when its grid index leaves that range — when neither endpoint is in a
near-solid cell, an in-range position is returned unchanged even if it
lies inside the buffer band — and the clamp of an out-of-range position
does land inside the (non-degenerate) boundary box. -/
theorem marker_particle_containment_amended :
    (∀ (isize jsize ksize : ℕ) (dx : ℚ) (existing candidates : List Vec3),
      addMarkerParticles isize jsize ksize dx existing candidates =
        existing ++ candidates.filter (fun p =>
          isGridIndexInRange (positionToGridIndex dx p) isize jsize ksize)) ∧
    (∀ (env : CollisionEnv) (boundary : AABB) (oldp newp : Vec3),
      (∀ g, env.nearSolidGrid g = false) →
      (isGridIndexInRange (positionToGridIndex env.dx newp)
          env.isize env.jsize env.ksize = true →
        resolveCollision env boundary oldp newp = newp) ∧
      (isGridIndexInRange (positionToGridIndex env.dx newp)
          env.isize env.jsize env.ksize = false →
        resolveCollision env boundary oldp newp =
          nearestPointInsideAABB boundary newp)) ∧
    (∀ (b : AABB) (p : Vec3), 0 ≤ b.width → 0 ≤ b.height → 0 ≤ b.depth →
      aabbIsPointInside b (nearestPointInsideAABB b p) = true) := by
  refine ⟨?_, ?_, ?_⟩
  · intro isize jsize ksize dx existing candidates
    exact addMarkerParticles_eq_filter isize jsize ksize dx candidates existing
  · intro env boundary oldp newp hclear
    constructor
    · intro hin
      simp only [resolveCollision]
      rw [if_pos hin, if_pos ⟨hclear _, hclear _⟩]
    · intro hout
      simp only [resolveCollision]
      have h1 : (if isGridIndexInRange (positionToGridIndex env.dx newp)
            env.isize env.jsize env.ksize = true then newp
          else nearestPointInsideAABB boundary newp) =
          nearestPointInsideAABB boundary newp := by
        simp [hout]
      rw [h1, if_pos ⟨hclear _, hclear _⟩]
  · intro b p hw hh hd
    unfold aabbIsPointInside nearestPointInsideAABB
    refine decide_eq_true ?_
    refine ⟨le_max_left _ _, ?_, le_max_left _ _, ?_, le_max_left _ _, ?_⟩
    · exact max_le (by linarith) (min_le_right _ _)
    · exact max_le (by linarith) (min_le_right _ _)
    · exact max_le (by linarith) (min_le_right _ _)

/-- Witness for C9's amended theorem: the counterexample's particle is
returned unchanged; an out-of-grid position is clamped; the clamp of
`(5,5,5)` into the unit box is inside it. -/
theorem marker_particle_containment_amended_witness :
    addMarkerParticles 10 10 10 1 [] [⟨1/2, 5, 5⟩] =
      [] ++ List.filter (fun p =>
        isGridIndexInRange (positionToGridIndex 1 p) 10 10 10)
        [⟨1/2, 5, 5⟩] ∧
    resolveCollision exCollisionEnv
      (aabbExpand (getBoundaryAABB 10 10 10 1) (-(1/5 * 1)))
      ⟨5, 5, 5⟩ ⟨1/2, 5, 5⟩ = ⟨1/2, 5, 5⟩ ∧
    aabbIsPointInside ⟨0, 0, 0, 1, 1, 1⟩
      (nearestPointInsideAABB ⟨0, 0, 0, 1, 1, 1⟩ ⟨5, 5, 5⟩) = true := by
  have h := marker_particle_containment_amended
  have h0 : (⌊(1:ℚ)/2⌋ : ℤ) = 0 := by rw [Int.floor_eq_iff]; norm_num
  have h5 : (⌊(5:ℚ)⌋ : ℤ) = 5 := by rw [Int.floor_eq_iff]; norm_num
  refine ⟨h.1 10 10 10 1 [] [⟨1/2, 5, 5⟩], ?_, ?_⟩
  · refine (h.2.1 exCollisionEnv
      (aabbExpand (getBoundaryAABB 10 10 10 1) (-(1/5 * 1)))
      ⟨5, 5, 5⟩ ⟨1/2, 5, 5⟩ (fun _ => rfl)).1 ?_
    norm_num [positionToGridIndex, isGridIndexInRange, exCollisionEnv, h0, h5]
  · exact h.2.2 ⟨0, 0, 0, 1, 1, 1⟩ ⟨5, 5, 5⟩ (by norm_num) (by norm_num)
      (by norm_num)

/-- Witness for C8 at concrete inputs `r = 1/2`, `p = 1000`. -/
theorem setter_validation_contract_witness :
    getPICFLIPRatio (setPICFLIPRatio ⟨1/20, 1000, 0⟩ (1/2)).1 = 1/2 ∧
    getDensity (setDensity ⟨1/20, 1000, 0⟩ 1000).1 = 1000 := by
  have h := setter_validation_contract ⟨1/20, 1000, 0⟩ (1/2) 1000
  refine ⟨(h.2.2.1 (by norm_num)).1, (h.2.2.2.2.2 (by norm_num)).1⟩

end FlipFluids
